import Mathlib

/-!
Verification of `src/common/src/project.rs` (shuttle project-name validation).

The Rust module defines `ProjectName`, a newtype over `String` whose values
are guaranteed valid, the predicate `ProjectName::is_valid`, the unit error
`InvalidProjectName`, and thin adapters (`Display`, `Deref`, `Serialize`,
`Deserialize`, `FromStr`).

The profanity check delegates to the external `rustrict` crate
(`Censor::from_str(name).censor_and_analyze()` followed by
`!analysis.is(Type::MODERATE_OR_HIGHER)`), whose code is not part of this
repository.  We therefore model the classifier abstractly, following the
spec: a classifier maps a text to a severity per category, and the validator
rejects when any category scores at moderate severity or higher.  Everything
else is translated directly from the Rust source.

Strings: Rust `name.len()` and `name.bytes()` act on UTF-8 bytes, while
`starts_with('-')` / `ends_with('-')` act on chars.  We model the string by
its character list (`String.data`).  This is extensionally faithful: when
every byte passes `is_valid_char` the string is ASCII, so byte length equals
char length; when some byte fails, some char also falls outside the allowed
ASCII ranges (bytes of a multi-byte UTF-8 char are all ≥ 0x80 and its char
code is > 0x7f), so the conjunction is `false` under either reading.
-/

namespace Shuttle

/-- Modelled from the spec: severity levels of the external content
classifier (the `rustrict` crate, absent from this repository):
none / mild / moderate / severe. -/
inductive Severity
  | low
  | mild
  | moderate
  | severe
  deriving DecidableEq

/-- Modelled from the spec: numeric strength of a severity level. -/
def Severity.toNat : Severity → Nat
  | .low => 0
  | .mild => 1
  | .moderate => 2
  | .severe => 3

/-- Modelled from the spec: content categories the external classifier
scores (profane, sexual, offensive, generic inappropriate content). -/
inductive Category
  | profane
  | sexual
  | offensive
  | inappropriate
  deriving DecidableEq

/-- All content categories. -/
def Category.all : List Category :=
  [Category.profane, Category.sexual, Category.offensive, Category.inappropriate]

/-- Modelled from the spec: the external classifier, a capability
`classify(text) -> severity-by-category`. -/
abbrev Classifier : Type := String → Category → Severity

/-- Modelled from the spec: the `MODERATE_OR_HIGHER` threshold. -/
def moderateOrHigher (sv : Severity) : Bool :=
  decide (Severity.moderate.toNat ≤ sv.toNat)

/-- Rust `is_profanity_free` (project.rs:34-37): run the candidate through
the classifier and accept iff no category scores at moderate or higher.
The classifier itself is modelled from the spec as the parameter `c`. -/
def is_profanity_free (c : Classifier) (name : String) : Bool :=
  !(Category.all.any fun cat => moderateOrHigher (c name cat))

/-- The reserved words, exactly as listed in the `HashSet` literal in
`is_reserved` (project.rs:42). -/
def reservedWords : List String :=
  ["shuttleapp", "shuttle", "console", "unstable", "staging"]

/-- Rust `is_reserved` (project.rs:39-49): membership in the process-wide
reserved-word set.  The `OnceCell` lazy initialization is concurrency
plumbing; the initialized set is the literal above, so membership is a pure
lookup. -/
def is_reserved (name : String) : Bool :=
  reservedWords.contains name

/-- Rust `is_valid_char` (project.rs:30-32):
`matches!(byte, b'a'..=b'z' | b'0'..=b'9' | b'-')`, expressed on the char
code (97-122 = a-z, 48-57 = 0-9, 45 = '-'). -/
def is_valid_char (ch : Char) : Bool :=
  (decide (97 ≤ ch.toNat) && decide (ch.toNat ≤ 122))
    || (decide (48 ≤ ch.toNat) && decide (ch.toNat ≤ 57))
    || decide (ch.toNat = 45)

/-- Rust `name.starts_with('-')`: the first char is a dash. -/
def startsWithDash (s : String) : Bool :=
  match s.data with
  | [] => false
  | ch :: _ => ch == '-'

/-- Rust `name.ends_with('-')`: the last char is a dash. -/
def endsWithDash (s : String) : Bool :=
  match s.data.getLast? with
  | some ch => ch == '-'
  | none => false

/-- Rust `ProjectName::is_valid` (project.rs:29-58): the conjunction, in
source order, of non-emptiness, length below 64, no leading dash, no
trailing dash, not reserved, the character-class check, and the
profanity-freeness check. -/
def is_valid (c : Classifier) (name : String) : Bool :=
  !name.data.isEmpty
    && decide (name.data.length < 64)
    && !startsWithDash name
    && !endsWithDash name
    && !is_reserved name
    && name.data.all is_valid_char
    && is_profanity_free c name

/-- Rust `pub struct ProjectName(String)`: a newtype over the string.
Derived `PartialEq`/`Eq` are byte-wise equality of the inner string, which
is exactly structural equality here. -/
structure ProjectName where
  inner : String
  deriving DecidableEq

/-- Rust `pub struct InvalidProjectName` (project.rs:61-71): a unit error
struct with no payload. -/
inductive InvalidProjectName
  | mk
  deriving DecidableEq

/-- The static `thiserror` display message of `InvalidProjectName`
(project.rs:62-70). -/
def InvalidProjectName.message : InvalidProjectName → String :=
  fun _ =>
    "Invalid project name. Project names must:
    1. only contain lowercase alphanumeric characters or dashes `-`.
    2. not start or end with a dash.
    3. not be empty.
    4. be shorter than 64 characters.
    5. not contain any profanities.
    6. not be a reserved word."

/-- Rust `ProjectName::new` (project.rs:21-27): wrap the candidate if
`is_valid` accepts it, otherwise return the unit error. -/
def ProjectName.new (c : Classifier) (name : String) :
    Except InvalidProjectName ProjectName :=
  if is_valid c name then Except.ok ⟨name⟩ else Except.error InvalidProjectName.mk

/-- Rust `FromStr for ProjectName` (project.rs:97-103): delegates to `new`. -/
def ProjectName.from_str (c : Classifier) (s : String) :
    Except InvalidProjectName ProjectName :=
  ProjectName.new c s

/-- Rust derived `Serialize` on the transparent newtype: the value
serializes to exactly its underlying string. -/
def ProjectName.serialize (p : ProjectName) : String :=
  p.inner

/-- Rust `Deserialize for ProjectName` (project.rs:87-95): decode a string,
then `s.parse()`, mapping a failure through `DeError::custom` (which renders
the error's display message). -/
def ProjectName.deserialize (c : Classifier) (s : String) :
    Except String ProjectName :=
  match ProjectName.from_str c s with
  | Except.ok p => Except.ok p
  | Except.error e => Except.error e.message

/-- Rust `Deref for ProjectName` (project.rs:73-79): exposes the inner
string read-only. -/
def ProjectName.deref (p : ProjectName) : String :=
  p.inner

/-- Rust `Display for ProjectName` (project.rs:81-85): `self.0.fmt(f)`,
i.e. renders the raw underlying string. -/
def ProjectName.toDisplay (p : ProjectName) : String :=
  p.inner

/-- Rust derived `Clone`: copies the inner string. -/
def ProjectName.clone (p : ProjectName) : ProjectName :=
  ⟨p.inner⟩

/-- The seven component checks of `is_valid`, in source order, evaluated on
a candidate. -/
def validationChecks (c : Classifier) (name : String) : List Bool :=
  [ !name.data.isEmpty
  , decide (name.data.length < 64)
  , !startsWithDash name
  , !endsWithDash name
  , !is_reserved name
  , name.data.all is_valid_char
  , is_profanity_free c name ]

/-- A classifier instance scoring every text as unobjectionable, used to
instantiate universally quantified statements at concrete inputs. -/
def cleanClassifier : Classifier := fun _ _ => Severity.low

/-- Modelled from the spec and the source tests: a classifier instance that
flags the disguised profanity `"test-condom-condom"` (which the source test
asserts invalid) at moderate severity in the profane category. -/
def flaggingClassifier : Classifier := fun s cat =>
  match cat with
  | Category.profane =>
      if s == "test-condom-condom" then Severity.moderate else Severity.low
  | _ => Severity.low

/-- A 63-character candidate made of lowercase letters only. -/
def sampleName63 : String :=
  ⟨List.replicate 63 'a'⟩

/-- The same candidate extended to 64 characters. -/
def sampleName64 : String :=
  ⟨List.replicate 64 'a'⟩

/-- Unfolding lemma for `ProjectName.new` on the success side. -/
theorem new_ok_iff (c : Classifier) (s : String) (p : ProjectName) :
    ProjectName.new c s = Except.ok p ↔ (is_valid c s = true ∧ p = ⟨s⟩) := by
  unfold ProjectName.new
  cases hv : is_valid c s <;> simp [hv, eq_comm]

/-- Unfolding lemma for `ProjectName.new` on the failure side. -/
theorem new_error_iff (c : Classifier) (s : String) :
    ProjectName.new c s = Except.error InvalidProjectName.mk ↔ is_valid c s = false := by
  unfold ProjectName.new
  cases hv : is_valid c s <;> simp [hv]

/-- Unfolding lemma for `ProjectName.deserialize` on the success side. -/
theorem deserialize_ok_iff (c : Classifier) (s : String) (p : ProjectName) :
    ProjectName.deserialize c s = Except.ok p ↔ (is_valid c s = true ∧ p = ⟨s⟩) := by
  unfold ProjectName.deserialize ProjectName.from_str ProjectName.new
  cases hv : is_valid c s <;> simp [hv, eq_comm]

/-- C1: `ProjectName::new(s)` returns `Ok` with a wrapped value iff
`is_valid s` is true; it returns the unit error `InvalidProjectName` (a type
with a single, payload-free value) iff `is_valid s` is false; and any value
it does return wraps a string on which `is_valid` holds. -/
theorem C1_new_ok_iff_is_valid (c : Classifier) (s : String) :
    ((∃ p : ProjectName, ProjectName.new c s = Except.ok p) ↔ is_valid c s = true)
    ∧ (ProjectName.new c s = Except.error InvalidProjectName.mk ↔ is_valid c s = false)
    ∧ (∀ e : InvalidProjectName, e = InvalidProjectName.mk)
    ∧ (∀ p : ProjectName, ProjectName.new c s = Except.ok p →
        is_valid c p.inner = true ∧ p.inner = s) := by
  refine ⟨?_, new_error_iff c s, fun e => by cases e; rfl, ?_⟩
  · constructor
    · rintro ⟨p, hp⟩
      exact ((new_ok_iff c s p).mp hp).1
    · intro hv
      exact ⟨⟨s⟩, (new_ok_iff c s ⟨s⟩).mpr ⟨hv, rfl⟩⟩
  · intro p hp
    obtain ⟨hv, hp⟩ := (new_ok_iff c s p).mp hp
    subst hp
    exact ⟨hv, rfl⟩

/-- C1 witness: instantiated at the reserved word `"shuttle"`, `new` returns
the unit error. -/
theorem C1_new_witness :
    ProjectName.new cleanClassifier "shuttle" = Except.error InvalidProjectName.mk :=
  (C1_new_ok_iff_is_valid cleanClassifier "shuttle").2.1.mpr (by decide)

/-- C2: every public path producing a `ProjectName` (`new`, `from_str`,
`deserialize`, `clone`) yields a value whose inner string passes `is_valid`,
and the read-only operations (`deref`, `Display`, `serialize`) return the
inner string unchanged; `clone` preserves the value. -/
theorem C2_invariant_all_paths (c : Classifier) (s : String) (p : ProjectName) :
    (ProjectName.new c s = Except.ok p → is_valid c p.inner = true)
    ∧ (ProjectName.from_str c s = Except.ok p → is_valid c p.inner = true)
    ∧ (ProjectName.deserialize c s = Except.ok p → is_valid c p.inner = true)
    ∧ (is_valid c p.inner = true → is_valid c (ProjectName.clone p).inner = true)
    ∧ ProjectName.clone p = p
    ∧ p.deref = p.inner ∧ p.toDisplay = p.inner ∧ p.serialize = p.inner := by
  refine ⟨?_, ?_, ?_, ?_, rfl, rfl, rfl, rfl⟩
  · intro hp
    obtain ⟨hv, hp⟩ := (new_ok_iff c s p).mp hp
    subst hp
    exact hv
  · intro hp
    obtain ⟨hv, hp⟩ := (new_ok_iff c s p).mp hp
    subst hp
    exact hv
  · intro hp
    obtain ⟨hv, hp⟩ := (deserialize_ok_iff c s p).mp hp
    subst hp
    exact hv
  · intro h
    exact h

/-- C2 witness: applied to the successful construction of `"x"`. -/
theorem C2_invariant_witness :
    is_valid cleanClassifier (ProjectName.mk "x").inner = true :=
  (C2_invariant_all_paths cleanClassifier "x" ⟨"x"⟩).1 rfl

/-- C5: any exact member of the reserved-word set is rejected by `is_valid`
regardless of the classifier; in particular `"shuttle"` and `"shuttleapp"`
are reserved and invalid. -/
theorem C5_reserved_rejected (c : Classifier) (s : String) :
    (is_reserved s = true → is_valid c s = false)
    ∧ is_valid c "shuttle" = false
    ∧ is_valid c "shuttleapp" = false
    ∧ is_reserved "shuttle" = true
    ∧ is_reserved "shuttleapp" = true := by
  refine ⟨?_, rfl, rfl, by decide, by decide⟩
  intro hr
  simp [is_valid, hr]

/-- C5 witness: applied to the reserved word `"console"`. -/
theorem C5_reserved_witness : is_valid cleanClassifier "console" = false :=
  (C5_reserved_rejected cleanClassifier "console").1 (by decide)

/-- C8: on success `new` wraps an exact copy of the candidate, and `Display`
renders exactly the raw underlying string, so formatting a `ProjectName`
built from `s` reproduces `s`. -/
theorem C8_exact_copy_display (c : Classifier) (s : String) (p : ProjectName) :
    (ProjectName.new c s = Except.ok p → p.inner = s ∧ p.toDisplay = s)
    ∧ p.toDisplay = p.inner := by
  refine ⟨?_, rfl⟩
  intro hp
  obtain ⟨_, hp⟩ := (new_ok_iff c s p).mp hp
  subst hp
  exact ⟨rfl, rfl⟩

/-- C8 witness: `new` on `"kebab-case"` yields a value displaying as
`"kebab-case"`. -/
theorem C8_exact_copy_witness :
    (ProjectName.mk "kebab-case").toDisplay = "kebab-case" :=
  ((C8_exact_copy_display cleanClassifier "kebab-case" ⟨"kebab-case"⟩).1 rfl).2

/-- C10: the reserved-word set is exactly
`{"shuttleapp", "shuttle", "console", "unstable", "staging"}`; `"console"`,
`"unstable"` and `"staging"` are invalid, and no other string is rejected by
the reserved-word check. -/
theorem C10_reserved_set_exact (c : Classifier) (s : String) :
    (is_reserved s = true ↔
      (s = "shuttleapp" ∨ s = "shuttle" ∨ s = "console" ∨ s = "unstable"
        ∨ s = "staging"))
    ∧ is_valid c "console" = false
    ∧ is_valid c "unstable" = false
    ∧ is_valid c "staging" = false := by
  refine ⟨?_, rfl, rfl, rfl⟩
  simp [is_reserved, reservedWords, String.ext_iff]

/-- C10 witness: `"console"` is recognized as reserved. -/
theorem C10_reserved_set_witness : is_reserved "console" = true :=
  (C10_reserved_set_exact cleanClassifier "console").1.mpr
    (Or.inr (Or.inr (Or.inl rfl)))

/-- Decomposition of `is_valid` into its seven component checks. -/
theorem is_valid_iff (c : Classifier) (s : String) :
    is_valid c s = true ↔
      (s.data.isEmpty = false ∧ s.data.length < 64 ∧ startsWithDash s = false
        ∧ endsWithDash s = false ∧ is_reserved s = false
        ∧ s.data.all is_valid_char = true ∧ is_profanity_free c s = true) := by
  simp only [is_valid, Bool.and_eq_true, Bool.not_eq_true', decide_eq_true_eq]
  tauto

/-- `is_valid` is the conjunction of the seven checks in `validationChecks`. -/
theorem is_valid_eq_checks_all (c : Classifier) (s : String) :
    is_valid c s = (validationChecks c s).all id := by
  simp [is_valid, validationChecks, Bool.and_assoc]

/-- C3: `is_valid` accepts only strings made of lowercase ASCII letters,
digits and dashes with no leading or trailing dash; the listed malformed
examples are invalid and `"50-name"`, `"kebab-case"` are valid. -/
theorem C3_character_class (c : Classifier) (s : String)
    (h50 : is_profanity_free c "50-name" = true)
    (hkc : is_profanity_free c "kebab-case" = true) :
    (is_valid c s = true →
      s.data.all is_valid_char = true ∧ startsWithDash s = false
        ∧ endsWithDash s = false)
    ∧ is_valid c "UPPERCASE" = false
    ∧ is_valid c "CamelCase" = false
    ∧ is_valid c "snake_case" = false
    ∧ is_valid c "invalid.name" = false
    ∧ is_valid c "asdf@fasd" = false
    ∧ is_valid c "-invalid-name" = false
    ∧ is_valid c "also-invalid-" = false
    ∧ is_valid c "50-name" = true
    ∧ is_valid c "kebab-case" = true := by
  refine ⟨?_, rfl, rfl, rfl, rfl, rfl, rfl, rfl, ?_, ?_⟩
  · intro hv
    obtain ⟨-, -, hs, he, -, hc, -⟩ := (is_valid_iff c s).mp hv
    exact ⟨hc, hs, he⟩
  · have h : is_valid c "50-name" = is_profanity_free c "50-name" := rfl
    rw [h, h50]
  · have h : is_valid c "kebab-case" = is_profanity_free c "kebab-case" := rfl
    rw [h, hkc]

/-- C3 witness: applied with a clean classifier, `"kebab-case"` is valid. -/
theorem C3_character_class_witness : is_valid cleanClassifier "kebab-case" = true :=
  (C3_character_class cleanClassifier "kebab-case" (by decide)
      (by decide)).2.2.2.2.2.2.2.2.2

/-- C4: `is_valid` requires a length of at least 1 and strictly below 64
characters: the empty string is invalid, a profanity-free 63-character
all-letter string is valid, its 64-character extension is invalid, and
`"x"` is valid. -/
theorem C4_length_bounds (c : Classifier) (s : String)
    (hx : is_profanity_free c "x" = true)
    (h63 : is_profanity_free c sampleName63 = true) :
    (is_valid c s = true → 1 ≤ s.data.length ∧ s.data.length < 64)
    ∧ is_valid c "" = false
    ∧ is_valid c sampleName63 = true
    ∧ is_valid c sampleName64 = false
    ∧ is_valid c "x" = true := by
  refine ⟨?_, rfl, ?_, rfl, ?_⟩
  · intro hv
    obtain ⟨he, hl, -⟩ := (is_valid_iff c s).mp hv
    refine ⟨?_, hl⟩
    rcases hd : s.data with - | ⟨a, l⟩
    · rw [hd] at he
      simp at he
    · simp only [List.length_cons]
      omega
  · have h : is_valid c sampleName63 = is_profanity_free c sampleName63 := rfl
    rw [h, h63]
  · have h : is_valid c "x" = is_profanity_free c "x" := rfl
    rw [h, hx]

/-- C4 witness: applied with a clean classifier, the 63-character sample is
valid. -/
theorem C4_length_bounds_witness : is_valid cleanClassifier sampleName63 = true :=
  (C4_length_bounds cleanClassifier "" (by decide) (by decide)).2.2.1

/-- C6: the content-moderation check runs on the original candidate string
(`is_valid` depends on the classifier only through its score of the
candidate itself) and rejects whenever any category scores at moderate
severity or higher; `"test-condom-condom"` is invalid once the classifier
flags it. -/
theorem C6_moderation_original (c : Classifier) (s : String) :
    (∀ cat : Category, moderateOrHigher (c s cat) = true → is_valid c s = false)
    ∧ (∀ d : Classifier, d s = c s → is_valid d s = is_valid c s)
    ∧ (is_profanity_free c "test-condom-condom" = false →
        is_valid c "test-condom-condom" = false) := by
  refine ⟨?_, ?_, ?_⟩
  · intro cat hcat
    have hpf : is_profanity_free c s = false := by
      simp only [is_profanity_free, Bool.not_eq_false', List.any_eq_true]
      exact ⟨cat, by cases cat <;> simp [Category.all], hcat⟩
    simp [is_valid, hpf]
  · intro d hd
    simp only [is_valid, is_profanity_free, hd]
  · intro hpf
    have h : is_valid c "test-condom-condom"
        = is_profanity_free c "test-condom-condom" := rfl
    rw [h, hpf]

/-- C6 witness: a classifier flagging `"test-condom-condom"` at moderate
severity makes that candidate invalid. -/
theorem C6_moderation_witness :
    is_valid flaggingClassifier "test-condom-condom" = false :=
  (C6_moderation_original flaggingClassifier "test-condom-condom").2.2 (by decide)

/-- C7: serialize-then-deserialize round-trips any successfully constructed
value; deserialization funnels through validation (an invalid decoded
string yields an error, a valid one the wrapped value, and every
deserialized value is valid); `FromStr` parsing equals `new`. -/
theorem C7_roundtrip_deserialize (c : Classifier) (s : String) (p : ProjectName) :
    (ProjectName.new c s = Except.ok p →
        ProjectName.deserialize c (ProjectName.serialize p) = Except.ok p)
    ∧ (is_valid c s = false →
        ProjectName.deserialize c s = Except.error InvalidProjectName.mk.message)
    ∧ (is_valid c s = true → ProjectName.deserialize c s = Except.ok ⟨s⟩)
    ∧ (∀ q : ProjectName, ProjectName.deserialize c s = Except.ok q →
        is_valid c q.inner = true)
    ∧ ProjectName.from_str c s = ProjectName.new c s := by
  refine ⟨?_, ?_, ?_, ?_, rfl⟩
  · intro hp
    obtain ⟨hv, hp⟩ := (new_ok_iff c s p).mp hp
    subst hp
    exact (deserialize_ok_iff c s ⟨s⟩).mpr ⟨hv, rfl⟩
  · intro hv
    unfold ProjectName.deserialize ProjectName.from_str ProjectName.new
    simp [hv]
  · intro hv
    exact (deserialize_ok_iff c s ⟨s⟩).mpr ⟨hv, rfl⟩
  · intro q hq
    obtain ⟨hv, hq⟩ := (deserialize_ok_iff c s q).mp hq
    subst hq
    exact hv

/-- C7 witness: deserializing the serialization of `⟨"x"⟩` returns `⟨"x"⟩`. -/
theorem C7_roundtrip_witness :
    ProjectName.deserialize cleanClassifier
      (ProjectName.serialize ⟨"x"⟩) = Except.ok ⟨"x"⟩ :=
  (C7_roundtrip_deserialize cleanClassifier "x" ⟨"x"⟩).1 rfl

/-- C9: the outcome of `is_valid` is the unordered conjunction of the seven
component checks: it is equivalent to their conjunction, and any permutation
of the list of checks conjoins to the same result. -/
theorem C9_pure_conjunction (c : Classifier) (s : String) :
    (is_valid c s = true ↔
      (s.data.isEmpty = false ∧ s.data.length < 64 ∧ startsWithDash s = false
        ∧ endsWithDash s = false ∧ is_reserved s = false
        ∧ s.data.all is_valid_char = true ∧ is_profanity_free c s = true))
    ∧ (∀ l : List Bool, (validationChecks c s).Perm l →
        (l.all id = true ↔ is_valid c s = true)) := by
  refine ⟨is_valid_iff c s, ?_⟩
  intro l hl
  rw [is_valid_eq_checks_all c s]
  simp only [List.all_eq_true, id_eq]
  constructor
  · intro h b hb
    exact h b (hl.mem_iff.mp hb)
  · intro h b hb
    exact h b (hl.mem_iff.mpr hb)

/-- C9 witness: the reversed check list on `"x"` conjoins to `is_valid`'s
result. -/
theorem C9_pure_conjunction_witness : is_valid cleanClassifier "x" = true :=
  ((C9_pure_conjunction cleanClassifier "x").2
      (validationChecks cleanClassifier "x").reverse
      (List.reverse_perm _).symm).mp (by decide)

end Shuttle
